import Mathlib

/-!
# Verification of vanti-dev/golang-socketio against its specification

Shallow embedding of the server core: the event/handler registry and
dispatch (`event.go`), the server façade with its room/sid registries
(`event.go`, server part), and the transports (`transport/polling.go`,
`transport/websocket.go`).  Go maps from names to values are embedded as
association lists with insert-replace semantics or as functions to
`Option`; Go channels/side effects are embedded as explicit traces
(lists of actions); `time.Duration` is embedded as `Nat` nanoseconds.
-/

namespace GolangSocketio

/-! ## Protocol messages

The `protocol` package is not among the provided sources; the message
type constants below are modelled from the spec's packet grammar
(type digits: 0 open, 1 close, 2 ping, 3 pong, 4 message, 5 upgrade,
6 noop; message sub-types connect/disconnect/event/ack). -/

/-- Message types distinguished by `event.processIncoming` and the codec,
named after the Go constants `protocol.MessageTypeOpen` etc. -/
inductive MessageType where
  | typeOpen
  | typeClose
  | typePing
  | typePong
  | typeEmpty
  | typeConnect
  | typeDisconnect
  | typeEmit
  | typeAckRequest
  | typeAckResponse
deriving DecidableEq, Repr

/-- `protocol.Message`: the decoded packet the state machine observes
(`Typ` stands for the Go field `Type`, a Lean keyword). -/
structure Message where
  Typ : MessageType
  AckID : Nat := 0
  Args : String := ""
  EventName : String := ""
deriving DecidableEq, Repr

/-! ## Handlers (`handler.go` is not under src/; its shape rules are
modelled from the spec, §4.E) -/

/-- The reflective view of a Go callback passed to `On`: whether the value
is a function, its parameter count (including the channel parameter) and
its return arity.  `hid` is an observation tag identifying the callback,
`decodeOk args` tells whether `json.Unmarshal` of the args blob into the
declared argument type succeeds, and `ret` is the value the callback
returns (as raw data) given the decoded argument. -/
structure rawFunc where
  isFunc : Bool
  nArgs : Nat
  nOut : Nat
  hid : Nat
  decodeOk : String → Bool
  ret : Option String → String

/-- `handler`: the stored representation of a registered callback, as used
by `event.processIncoming` (fields `hasArgs` and `out` appear literally in
`event.go`). -/
structure handler where
  hasArgs : Bool
  out : Bool
  hid : Nat
  decodeOk : String → Bool
  ret : Option String → String

/-- Modelled from the spec: `newHandler` (in `handler.go`, not under src/)
introspects the callback; registration fails with `BadHandlerShape` unless
the value is a function with 1 or 2 parameters and at most one return.  -/
def newHandler (f : rawFunc) : Except String handler :=
  if !f.isFunc then .error "BadHandlerShape"
  else if f.nArgs != 1 && f.nArgs != 2 then .error "BadHandlerShape"
  else if f.nOut > 1 then .error "BadHandlerShape"
  else .ok { hasArgs := f.nArgs == 2, out := f.nOut == 1,
             hid := f.hid, decodeOk := f.decodeOk, ret := f.ret }

/-! ## The event registry (`event.go`)

The Go `map[string]*handler` is embedded as an association list where an
insert prepends and a lookup takes the first match: exactly the Go map's
replace-on-insert, latest-binding-wins semantics. -/

/-- The handlers map of `event`. -/
def Handlers := List (String × handler)

/-- `event.On`: register `f` under `name`; on a bad shape the error from
`newHandler` is returned and the map is unchanged. -/
def eventOn (hs : List (String × handler)) (name : String) (f : rawFunc) :
    Except String (List (String × handler)) :=
  match newHandler f with
  | .error e => .error e
  | .ok c => .ok ((name, c) :: hs)

/-- `event.findHandler`: lookup by exact name. -/
def findHandler (hs : List (String × handler)) (name : String) : Option handler :=
  match hs with
  | [] => none
  | (n, h) :: rest => if n = name then some h else findHandler rest name

/-! ## Inbound dispatch (`event.processIncoming`)

Side effects are embedded as an explicit trace. -/

/-- Observable effects of processing one inbound message. -/
inductive Effect where
  /-- `f.call(c, data)`: the callback tagged `hid` is invoked; `arg` is
  `none` for a no-args callback and `some blob` for the decoded blob. -/
  | call (hid : Nat) (arg : Option String)
  /-- `c.send(ackResponse, result)`: an AckResponse packet is enqueued. -/
  | sendAckResponse (ackID : Nat) (result : String)
  /-- delivery of an ack response into the waiting ack channel. -/
  | deliverAck (ackID : Nat) (args : String)
deriving DecidableEq, Repr

/-- `event.processIncoming`: dispatch one decoded message.
`ackKnown ackID` abstracts `c.ack.obtain(ackID)` succeeding (the ack
registry `ack.go` is not under src/); it is only consulted in the
AckResponse branch, which no claim here depends on. -/
def processIncoming (hs : List (String × handler)) (ackKnown : Nat → Bool)
    (m : Message) : List Effect :=
  match m.Typ with
  | .typeEmit =>
    match findHandler hs m.EventName with
    | none => []
    | some f =>
      if !f.hasArgs then [.call f.hid none]
      else if f.decodeOk m.Args then [.call f.hid (some m.Args)]
      else []
  | .typeAckRequest =>
    match findHandler hs m.EventName with
    | none => []
    | some f =>
      if !f.out then []
      else if f.hasArgs then
        if f.decodeOk m.Args then
          [.call f.hid (some m.Args), .sendAckResponse m.AckID (f.ret (some m.Args))]
        else []
      else [.call f.hid none, .sendAckResponse m.AckID (f.ret none)]
  | .typeAckResponse =>
    if ackKnown m.AckID then [.deliverAck m.AckID m.Args] else []
  | _ => []

/-- The inbound loop dispatches queued messages one after the other, in
arrival order; `processIncoming` never terminates the loop. -/
def processAll (hs : List (String × handler)) (ackKnown : Nat → Bool)
    (ms : List Message) : List Effect :=
  match ms with
  | [] => []
  | m :: rest => processIncoming hs ackKnown m ++ processAll hs ackKnown rest

/-! ## Server registries (`event.go`, server part)

Channels are identified by tags (`Nat`), standing for the Go `*Channel`
pointers.  The three registry maps of `Server` become functions to
`Option`; a key absent from the Go map is `none`. -/

/-- The registry state of `Server`: `channels` maps a room name to the set
of member channels, `rooms` maps a channel to the set of rooms it joined,
`sids` maps a session id to its channel. -/
structure ServerState where
  channels : String → Option (Finset Nat)
  rooms : Nat → Option (Finset String)
  sids : String → Option Nat

/-- `Server.BroadcastTo`: under the read lock, emit `(name, payload)` to
every alive channel of the room.  `alive c` abstracts `cn.IsAlive()`.
The result is the set of `cn.Emit(name, payload)` dispatches fired. -/
def BroadcastTo (s : ServerState) (alive : Nat → Bool) (room name payload : String) :
    Finset (Nat × String × String) :=
  match s.channels room with
  | none => ∅
  | some roomChannels =>
    (roomChannels.filter (fun cn => alive cn)).image (fun cn => (cn, name, payload))

/-- `Server.Amount`: the number of channels joined to the room. -/
def Amount (s : ServerState) (room : String) : Nat :=
  match s.channels room with
  | none => 0
  | some roomChannels => roomChannels.card

/-- `onConnection` (fired on connection and on connection upgrade):
insert the channel into the sid index under its id. -/
def onConnection (s : ServerState) (c : Nat) (cid : String) : ServerState :=
  { s with sids := fun k => if k = cid then some c else s.sids k }

/-- One registry operation performed by `onDisconnection`, in program
order. -/
inductive CleanupOp where
  /-- `delete(curRoom, c)` (and `delete(c.server.channels, room)` when the
  room became empty). -/
  | removeFromRoom (room : String)
  /-- the deferred `delete(c.server.sids, c.Id())`. -/
  | deleteSid (sid : String)
deriving DecidableEq, Repr

/-- `onDisconnection`: remove the channel from every room it belongs to
(deleting rooms left empty), drop its `rooms` entry, and then — by the
deferred function — delete its sid entry.  Returns the new state together
with the trace of registry operations in execution order. -/
def onDisconnection (s : ServerState) (c : Nat) (cid : String) :
    ServerState × List CleanupOp :=
  match s.rooms c with
  | none =>
    ({ s with sids := fun k => if k = cid then none else s.sids k },
     [.deleteSid cid])
  | some memberRooms =>
    ({ channels := fun room =>
         if room ∈ memberRooms then
           match s.channels room with
           | none => none
           | some curRoom =>
             let curRoom := curRoom.erase c
             if curRoom = ∅ then none else some curRoom
         else s.channels room,
       rooms := fun c2 => if c2 = c then none else s.rooms c2,
       sids := fun k => if k = cid then none else s.sids k },
     (memberRooms.sort (· ≤ ·)).map .removeFromRoom ++ [.deleteSid cid])

/-! ## Transport upgrade (`Server.upgradeEventLoop`) -/

/-- Observable steps of `upgradeEventLoop` relevant to the session
registries and the channel lifecycle. -/
inductive UpgradeStep where
  /-- `onConnection(c)`: the sid index now points at the new channel. -/
  | connectNew (c : Nat)
  /-- `pollingChannel.stub()` after `<-c.upgradedC`. -/
  | stubOld (c : Nat)
  /-- a `disconnection` firing (never emitted by `upgradeEventLoop`). -/
  | fireDisconnection (c : Nat)
deriving DecidableEq, Repr

/-- `Server.upgradeEventLoop`: look up the polling channel for `sid`;
absent it, return unchanged.  Otherwise start the new channel `newC`,
run `onConnection(newC)` — re-pointing the sid index — and, once the
probe arrives, stub the old channel.  `stub` (in `channel.go`, not under
src/) is modelled from the spec: it drains the polling outbound queue and
pushes the stop sentinel; it touches no registry and fires no
`disconnection`.  The returned trace lists the steps in order. -/
def upgradeEventLoop (s : ServerState) (sid : String) (newC : Nat) :
    ServerState × List UpgradeStep :=
  match s.sids sid with
  | none => (s, [])
  | some _oldC =>
    (onConnection s newC sid, [.connectNew newC, .stubOld _oldC])

/-! ## Durations and transport defaults

`time.Duration` is a count of nanoseconds. -/

/-- `time.Millisecond` in nanoseconds. -/
def timeMillisecond : Nat := 1000000

/-- `time.Second` in nanoseconds. -/
def timeSecond : Nat := 1000000000

/-- `transport.PlDefaultPingInterval = 30 * time.Second`. -/
def PlDefaultPingInterval : Nat := 30 * timeSecond

/-- `transport.PlDefaultPingTimeout = 60 * time.Second`. -/
def PlDefaultPingTimeout : Nat := 60 * timeSecond

/-- `transport.wsDefaultPingInterval = 30 * time.Second`. -/
def wsDefaultPingInterval : Nat := 30 * timeSecond

/-- `transport.wsDefaultPingTimeout = 60 * time.Second`. -/
def wsDefaultPingTimeout : Nat := 60 * timeSecond

/-! ## Session id generation (`Server.setupEventLoop`)

The sid is `buf.String()[:20]` where `buf` holds the URL-safe base64
encoding (with padding) of `md5.Sum(hash)`.  `md5.Sum` is Go standard
library (an external collaborator); it always yields a 16-byte digest,
which the definitions below take as input. -/

/-- The URL-safe base64 alphabet (`base64.URLEncoding`), as a list of
64 characters. -/
def b64Alphabet : List Char :=
  "ABCDEFGHIJKLMNOPQRSTUVWXYZabcdefghijklmnopqrstuvwxyz0123456789-_".toList

/-- The base64 character for a 6-bit value. -/
def b64Char (n : Nat) : Char := b64Alphabet.getD (n % 64) 'A'

/-- Base64-encode a byte list, 3 bytes → 4 characters, padding the final
1- or 2-byte group with `=`. -/
def base64Encode : List Nat → List Char
  | [] => []
  | [a] =>
    [b64Char (a / 4), b64Char (a % 4 * 16), '=', '=']
  | [a, b] =>
    [b64Char (a / 4), b64Char (a % 4 * 16 + b / 16), b64Char (b % 16 * 4), '=']
  | a :: b :: c :: rest =>
    b64Char (a / 4) :: b64Char (a % 4 * 16 + b / 16) ::
    b64Char (b % 16 * 4 + c / 64) :: b64Char (c % 64) :: base64Encode rest

/-- The sid built in `setupEventLoop` from the md5 digest of the
address/time/random hash: base64-encode and keep the first 20 bytes
(`buf.String()[:20]`). -/
def generateSid (digest : List Nat) : List Char :=
  (base64Encode digest).take 20

/-! ## Connection headers and the open sequence -/

/-- `connectionHeader`: the open packet's payload. -/
structure connectionHeader where
  Sid : List Char
  Upgrades : List String
  PingInterval : Nat
  PingTimeout : Nat
deriving DecidableEq, Repr

/-- The transport a request selects (`?transport=` query parameter). -/
inductive transportKind where
  | polling
  | websocket
deriving DecidableEq, Repr

/-- The header built by `Server.setupEventLoop` for a fresh session: the
generated sid, upgrades `["websocket"]`, and the transport's ping params
converted to milliseconds.  `setupEventLoop` builds the same header for
a polling and for a websocket connection; `ServeHTTP` reaches it from
both no-sid branches, so the header does not depend on the transport
kind `k`. -/
def setupConnHeader (_k : transportKind) (digest : List Nat)
    (interval timeout : Nat) : connectionHeader :=
  { Sid := generateSid digest,
    Upgrades := ["websocket"],
    PingInterval := interval / timeMillisecond,
    PingTimeout := timeout / timeMillisecond }

/-- The header built by `Server.upgradeEventLoop` for the replacement
websocket channel: the existing sid, empty upgrades list, and the
websocket transport's ping params in milliseconds. -/
def upgradeConnHeader (sid : List Char) (interval timeout : Nat) : connectionHeader :=
  { Sid := sid,
    Upgrades := [],
    PingInterval := interval / timeMillisecond,
    PingTimeout := timeout / timeMillisecond }

/-- Modelled from the spec: `json.Marshal` of the connection header (the
`protocol` package and the header's JSON tags are not under src/).  The
open payload is exactly
`{"sid":"…","upgrades":[…],"pingInterval":…,"pingTimeout":…}`. -/
def jsonMarshalHeader (h : connectionHeader) : String :=
  "\x7b\"sid\":\"" ++ String.mk h.Sid ++ "\",\"upgrades\":["
    ++ String.intercalate "," (h.Upgrades.map (fun u => "\"" ++ u ++ "\""))
    ++ "],\"pingInterval\":" ++ toString h.PingInterval
    ++ ",\"pingTimeout\":" ++ toString h.PingTimeout ++ "\x7d"

/-- Modelled from the spec: `protocol.MustEncode` for the two packets the
open sequence uses (packet grammar `<typeDigit><payload>`; type digit 0
is open, 6 is noop, and the empty sentinel encodes as `6`). -/
def MustEncode (m : Message) : String :=
  match m.Typ with
  | .typeOpen => "0" ++ m.Args
  | .typeEmpty => "6"
  | _ => ""

/-- `Server.sendOpenSequence`: enqueue on `c.outC` first the open packet
carrying the JSON header, then the empty-message sentinel packet. -/
def sendOpenSequence (h : connectionHeader) : List String :=
  [MustEncode { Typ := .typeOpen, Args := jsonMarshalHeader h },
   MustEncode { Typ := .typeEmpty }]

/-! ## Polling transport (`transport/polling.go`) -/

/-- `transport.StopMessage = "stop"`. -/
def StopMessage : String := "stop"

/-- `transport.noError = "0"`. -/
def noError : String := "0"

/-- Modelled from the spec: `protocol.MessageBlank` (the `protocol`
package is not under src/\x29.  It is the blank/noop sentinel packet whose
length-prefixed form the polling writer logs as `1:6`, so the constant
is the one-character string `6`. -/
def MessageBlank : String := "6"

/-- `transport.withLength`: prepend the decimal byte length and `:`. -/
def withLength (m : String) : String := toString m.length ++ ":" ++ m

/-- The fixed minimal HTTP/1.1 response the hijack path writes before the
length-prefixed blank packet. -/
def hijackResponseHead : String :=
  "HTTP/1.1 200 OK\r\nCache-Control: no-cache, private\r\nContent-Length: 3\r\nDate: Mon, 24 Nov 2016 10:21:21 GMT\r\n\r\n"

/-- What the `select` at the top of `PollingWriter` yields: either the
`SendTimeout` timer fires first, or a message arrives on `eventsOutC`. -/
inductive WriterInput where
  | timeoutFired
  | message (m : String)
deriving DecidableEq, Repr

/-- Observable actions of `PollingConnection.PollingWriter`, in program
order. -/
inductive WriterAction where
  /-- `setHeaders(w)`. -/
  | setHeaders
  /-- a send on the `errors` channel (`writerStatus`). -/
  | reportStatus (s : String)
  /-- `w.Write` of the HTTP response body. -/
  | writeBody (s : String)
  /-- the write on the hijacked connection. -/
  | hijackWrite (s : String)
  /-- a send on `eventsInC` (the inbound rendezvous). -/
  | pushInbound (s : String)
  /-- `http.Error(w, s, 500)`. -/
  | httpError (s : String)
deriving DecidableEq, Repr

/-- `PollingConnection.PollingWriter`: set the response headers, then wait
for either the send timeout (report `noError`) or a message.  A message
equal to the blank sentinel hijacks the connection (`hijackOK` abstracts
`w` implementing `http.Hijacker` and `Hijack()` succeeding), writes the
fixed response plus the length-prefixed blank packet, reports `noError`
and pushes `StopMessage` inbound; any other message is written with its
length prefix and the write outcome (`writeErr` abstracts the `w.Write`
error) is reported. -/
def PollingWriter (input : WriterInput) (hijackOK : Bool)
    (writeErr : Option String) : List WriterAction :=
  match input with
  | .timeoutFired => [.setHeaders, .reportStatus noError]
  | .message m =>
    let message := withLength m
    if message = withLength MessageBlank then
      if !hijackOK then [.setHeaders, .httpError "webserver doesn't support hijacking"]
      else [.setHeaders,
            .hijackWrite (hijackResponseHead ++ withLength MessageBlank),
            .reportStatus noError,
            .pushInbound StopMessage]
    else
      match writeErr with
      | some e => [.setHeaders, .writeBody message, .reportStatus e]
      | none => [.setHeaders, .writeBody message, .reportStatus noError]

/-! ## Websocket transport (`transport/websocket.go`) -/

/-- Errors a websocket `GetMessage` can produce, named after the
`transport` package's error variables. -/
inductive WsError where
  /-- `errBinaryMessage`: "binary messages are not supported". -/
  | errBinaryMessage
  /-- `errBadBuffer`: "buffer error". -/
  | errBadBuffer
  /-- `errPacketWrong`: "wrong packet type error" (returned for an empty
  frame). -/
  | errPacketWrong
  /-- an error from `ws.socket.NextReader()`. -/
  | errNextReader
deriving DecidableEq, Repr

/-- What `ws.socket.NextReader()` and the subsequent read yield. -/
inductive WsFrame where
  /-- a text frame with the given contents. -/
  | text (s : String)
  /-- a frame whose message type is not `websocket.TextMessage`. -/
  | nonText
  /-- `NextReader` itself failed. -/
  | readFailed
  /-- `ioutil.ReadAll` failed. -/
  | badBuffer
deriving DecidableEq, Repr

/-- `WebsocketConnection.GetMessage`: sets the read deadline to
`now + ReceiveTimeout`, then reads one frame: a `NextReader` error is
propagated, a non-text frame yields `errBinaryMessage`, a read failure
yields `errBadBuffer`, an empty text yields `errPacketWrong`, and any
other text is returned.  The result pairs the deadline set with the
outcome (`.error e` models Go's `("", e)`). -/
def wsGetMessage (receiveTimeout now : Nat) (frame : WsFrame) :
    Nat × Except WsError String :=
  (now + receiveTimeout,
   match frame with
   | .readFailed => .error .errNextReader
   | .nonText => .error .errBinaryMessage
   | .badBuffer => .error .errBadBuffer
   | .text s => if s.length = 0 then .error .errPacketWrong else .ok s)

/-! ## Concrete states used by witnesses and counterexamples -/

/-- A single polling channel (tag 0, sid `"S"`) joined to `"roomA"`. -/
def pollState : ServerState :=
  { channels := fun r => if r = "roomA" then some {0} else none,
    rooms := fun c => if c = 0 then some {"roomA"} else none,
    sids := fun k => if k = "S" then some 0 else none }

/-- Three channels 0, 1, 2 (sids `"A"`, `"B"`, `"C"`) joined to `"roomX"`. -/
def trioState : ServerState :=
  { channels := fun r => if r = "roomX" then some {0, 1, 2} else none,
    rooms := fun c => if c ≤ 2 then some {"roomX"} else none,
    sids := fun k =>
      if k = "A" then some 0 else if k = "B" then some 1
      else if k = "C" then some 2 else none }

/-- A concrete registry: `"join"` has an arity-1 handler (tag 7) that
returns `"OK"`, `"noreply"` has an arity-0 handler (tag 8) without a
return value. -/
def demoHandlers : List (String × handler) :=
  [("join", { hasArgs := true, out := true, hid := 7,
              decodeOk := fun _ => true, ret := fun _ => "\"OK\"" }),
   ("noreply", { hasArgs := false, out := false, hid := 8,
                 decodeOk := fun _ => true, ret := fun _ => "" })]

/-- The header `setupEventLoop` builds for a fresh polling session with
the default polling transport (whose `PingParams` returns
`PlDefaultPingInterval, PlDefaultPingTimeout`). -/
def pollingOpenHeader (digest : List Nat) : connectionHeader :=
  setupConnHeader .polling digest PlDefaultPingInterval PlDefaultPingTimeout

/-- A concrete 16-byte md5 digest value. -/
def digest16 : List Nat := List.replicate 16 0

/-! # Theorems -/

/-! ## Helper lemmas -/

theorem base64Encode_length : ∀ l : List Nat,
    (base64Encode l).length = 4 * ((l.length + 2) / 3)
  | [] => by simp [base64Encode]
  | [_] => by simp [base64Encode]
  | [_, _] => by simp [base64Encode]
  | _ :: _ :: _ :: rest => by
    have ih := base64Encode_length rest
    simp only [base64Encode, List.length_cons, ih]
    omega

/-- Only the blank sentinel itself length-prefixes to the sentinel's
length-prefixed form, so `PollingWriter`'s comparison after the
`message = withLength(message)` reassignment recognises exactly the
blank sentinel. -/
theorem withLength_eq_blank {a : String} (h : withLength a = withLength MessageBlank) :
    a = MessageBlank := by
  have hd : (Nat.repr a.length).data ++ ':' :: a.data = ['1', ':', '6'] := by
    have h2 := congrArg String.data h
    simp only [withLength, String.data_append, MessageBlank] at h2
    simpa using h2
  rcases e : (Nat.repr a.length).data with _ | ⟨x, _ | ⟨y, _ | ⟨z, rest⟩⟩⟩ <;>
      rw [e] at hd <;> simp_all
  obtain ⟨da⟩ := a
  simp at hd
  simp [MessageBlank, hd.2]

/-! ## C9: websocket GetMessage -/

/-- C9: `WebsocketConnection.GetMessage` sets a read deadline of
`ReceiveTimeout` from now before reading; a non-text frame yields the
binary-not-supported error (`errBinaryMessage`) and no message; a
zero-length text frame yields the empty-frame error (`errPacketWrong`)
and no message. -/
theorem wsGetMessage_deadline_and_errors (receiveTimeout now : Nat) (frame : WsFrame) :
    (wsGetMessage receiveTimeout now frame).1 = now + receiveTimeout ∧
    (frame = .nonText →
      (wsGetMessage receiveTimeout now frame).2 = .error .errBinaryMessage) ∧
    (∀ s, frame = .text s → s.length = 0 →
      (wsGetMessage receiveTimeout now frame).2 = .error .errPacketWrong) := by
  refine ⟨rfl, ?_, ?_⟩
  · rintro rfl; rfl
  · rintro s rfl h
    simp [wsGetMessage, h]

/-- C9 witness: the deadline and both error outcomes at concrete inputs. -/
theorem wsGetMessage_deadline_and_errors_witness :
    (wsGetMessage 60 0 .nonText).1 = 0 + 60 ∧
    (wsGetMessage 60 0 .nonText).2 = .error .errBinaryMessage ∧
    (wsGetMessage 60 0 (.text "")).2 = .error .errPacketWrong :=
  ⟨(wsGetMessage_deadline_and_errors 60 0 .nonText).1,
   (wsGetMessage_deadline_and_errors 60 0 .nonText).2.1 rfl,
   (wsGetMessage_deadline_and_errors 60 0 (.text "")).2.2 "" rfl rfl⟩

/-! ## C7: the polling writer -/

/-- C7: a parked polling GET either times out and reports `noError`
through the writer-status channel, or receives a frame and writes it with
a decimal length prefix to the HTTP response, reporting the write
outcome; a frame equal to the blank/noop sentinel instead hijacks the
connection, writes the fixed minimal HTTP/1.1 200 response containing the
length-prefixed blank packet, reports `noError`, and then pushes
`StopMessage` into the inbound channel. -/
theorem pollingWriter_behavior (input : WriterInput) (hijackOK : Bool)
    (writeErr : Option String) :
    (input = .timeoutFired →
      PollingWriter input hijackOK writeErr = [.setHeaders, .reportStatus noError]) ∧
    (∀ m, input = .message m → m ≠ MessageBlank →
      PollingWriter input hijackOK writeErr =
        [.setHeaders, .writeBody (withLength m),
         .reportStatus (writeErr.getD noError)]) ∧
    (input = .message MessageBlank → hijackOK = true →
      PollingWriter input hijackOK writeErr =
        [.setHeaders,
         .hijackWrite (hijackResponseHead ++ withLength MessageBlank),
         .reportStatus noError, .pushInbound StopMessage]) := by
  refine ⟨?_, ?_, ?_⟩
  · rintro rfl; rfl
  · rintro m rfl hm
    have hne : ¬(withLength m = withLength MessageBlank) :=
      fun h => hm (withLength_eq_blank h)
    cases writeErr <;> simp [PollingWriter, hne]
  · rintro rfl h
    simp [PollingWriter, h]

/-- C7 witness: the three writer outcomes at concrete inputs. -/
theorem pollingWriter_behavior_witness :
    PollingWriter .timeoutFired true none = [.setHeaders, .reportStatus noError] ∧
    PollingWriter (.message "2") true none =
      [.setHeaders, .writeBody (withLength "2"), .reportStatus noError] ∧
    PollingWriter (.message MessageBlank) true none =
      [.setHeaders,
       .hijackWrite (hijackResponseHead ++ withLength MessageBlank),
       .reportStatus noError, .pushInbound StopMessage] :=
  ⟨(pollingWriter_behavior .timeoutFired true none).1 rfl,
   (pollingWriter_behavior (.message "2") true none).2.1 "2" rfl (by decide),
   (pollingWriter_behavior (.message MessageBlank) true none).2.2 rfl rfl⟩

/-! ## C5: ack request dispatch -/

/-- C5: an inbound AckRequest whose event name has a registered handler
declaring a return value invokes the handler as for a plain event (with
the decoded args when it takes them) and enqueues an AckResponse carrying
the same ackID and the handler's return value; when the handler declares
no return, or no handler is registered, nothing is invoked and no
AckResponse is enqueued. -/
theorem ackRequest_dispatch (hs : List (String × handler)) (ackKnown : Nat → Bool)
    (name args : String) (ackID : Nat) :
    (∀ f, findHandler hs name = some f → f.out = true →
      (f.hasArgs = true → f.decodeOk args = true) →
      processIncoming hs ackKnown
          { Typ := .typeAckRequest, AckID := ackID, Args := args, EventName := name } =
        [.call f.hid (if f.hasArgs then some args else none),
         .sendAckResponse ackID (f.ret (if f.hasArgs then some args else none))]) ∧
    (∀ f, findHandler hs name = some f → f.out = false →
      processIncoming hs ackKnown
          { Typ := .typeAckRequest, AckID := ackID, Args := args, EventName := name } = []) ∧
    (findHandler hs name = none →
      processIncoming hs ackKnown
          { Typ := .typeAckRequest, AckID := ackID, Args := args, EventName := name } = []) := by
  refine ⟨?_, ?_, ?_⟩
  · intro f hf hout hdec
    cases hA : f.hasArgs
    · simp [processIncoming, hf, hout, hA]
    · simp [processIncoming, hf, hout, hA, hdec hA]
  · intro f hf hout
    simp [processIncoming, hf, hout]
  · intro hf
    simp [processIncoming, hf]

/-- C5 witness: on `demoHandlers`, an ack request for `"join"` (which
returns a value) produces the call and the AckResponse with the same
ackID; one for `"noreply"` (no return) and one for an unregistered name
produce nothing. -/
theorem ackRequest_dispatch_witness :
    processIncoming demoHandlers (fun _ => false)
        { Typ := .typeAckRequest, AckID := 3, Args := "[\"roomA\"]", EventName := "join" } =
      [.call 7 (some "[\"roomA\"]"), .sendAckResponse 3 "\"OK\""] ∧
    processIncoming demoHandlers (fun _ => false)
        { Typ := .typeAckRequest, AckID := 4, Args := "[]", EventName := "noreply" } = [] ∧
    processIncoming demoHandlers (fun _ => false)
        { Typ := .typeAckRequest, AckID := 5, Args := "[]", EventName := "nosuch" } = [] :=
  ⟨(ackRequest_dispatch demoHandlers (fun _ => false) "join" "[\"roomA\"]" 3).1
      _ rfl rfl (fun _ => rfl),
   (ackRequest_dispatch demoHandlers (fun _ => false) "noreply" "[]" 4).2.1 _ rfl rfl,
   (ackRequest_dispatch demoHandlers (fun _ => false) "nosuch" "[]" 5).2.2 rfl⟩

/-! ## C8: unknown or undecodable events are dropped -/

/-- C8: an inbound event message whose name has no registered handler, or
whose args blob fails to deserialise into the handler's declared argument
type, is dropped: no handler is invoked, and the inbound loop processes
the subsequent messages exactly as if the dropped message had not
arrived. -/
theorem emit_dispatch_drops (hs : List (String × handler)) (ackKnown : Nat → Bool)
    (m : Message) (rest : List Message)
    (hty : m.Typ = .typeEmit)
    (hdrop : findHandler hs m.EventName = none ∨
      ∃ f, findHandler hs m.EventName = some f ∧
        f.hasArgs = true ∧ f.decodeOk m.Args = false) :
    processIncoming hs ackKnown m = [] ∧
    processAll hs ackKnown (m :: rest) = processAll hs ackKnown rest := by
  have h1 : processIncoming hs ackKnown m = [] := by
    rcases hdrop with hnone | ⟨f, hf, hargs, hdec⟩
    · simp [processIncoming, hty, hnone]
    · simp [processIncoming, hty, hf, hargs, hdec]
  exact ⟨h1, by simp [processAll, h1]⟩

/-- C8 witness: on `demoHandlers`, an event with an unregistered name is
dropped and the next message is still dispatched. -/
theorem emit_dispatch_drops_witness :
    processIncoming demoHandlers (fun _ => false)
        { Typ := .typeEmit, Args := "[]", EventName := "nosuch" } = [] ∧
    processAll demoHandlers (fun _ => false)
        [{ Typ := .typeEmit, Args := "[]", EventName := "nosuch" },
         { Typ := .typeEmit, Args := "[]", EventName := "noreply" }] =
      processAll demoHandlers (fun _ => false)
        [{ Typ := .typeEmit, Args := "[]", EventName := "noreply" }] :=
  emit_dispatch_drops demoHandlers (fun _ => false)
    { Typ := .typeEmit, Args := "[]", EventName := "nosuch" }
    [{ Typ := .typeEmit, Args := "[]", EventName := "noreply" }]
    rfl (Or.inl rfl)

/-! ## C10: re-registration replaces the handler -/

/-- C10: registering a second callback of any valid shape (1 or 2
parameters, 0 or 1 return values — exactly the shapes `newHandler`
accepts) under an already-used name succeeds (no error) and replaces the
previous handler: lookups and dispatches for that name now reach only
the newly registered callback, with its declared arity. -/
theorem on_replaces_handler (hs hs1 : List (String × handler)) (name : String)
    (f1 f2 : rawFunc) (ackKnown : Nat → Bool) (ackID : Nat) (args : String)
    (_reg1 : eventOn hs name f1 = .ok hs1)
    (hFunc : f2.isFunc = true)
    (hArity : f2.nArgs = 1 ∨ f2.nArgs = 2)
    (hOut : f2.nOut = 0 ∨ f2.nOut = 1)
    (hdec : f2.nArgs = 2 → f2.decodeOk args = true) :
    eventOn hs1 name f2 =
      .ok ((name, { hasArgs := f2.nArgs == 2, out := f2.nOut == 1, hid := f2.hid,
                    decodeOk := f2.decodeOk, ret := f2.ret }) :: hs1) ∧
    findHandler ((name, { hasArgs := f2.nArgs == 2, out := f2.nOut == 1, hid := f2.hid,
                          decodeOk := f2.decodeOk, ret := f2.ret }) :: hs1) name =
      some { hasArgs := f2.nArgs == 2, out := f2.nOut == 1, hid := f2.hid,
             decodeOk := f2.decodeOk, ret := f2.ret } ∧
    processIncoming ((name, { hasArgs := f2.nArgs == 2, out := f2.nOut == 1,
                              hid := f2.hid, decodeOk := f2.decodeOk,
                              ret := f2.ret }) :: hs1) ackKnown
        { Typ := .typeEmit, AckID := ackID, Args := args, EventName := name } =
      [.call f2.hid (if f2.nArgs = 2 then some args else none)] := by
  have hnew : newHandler f2 =
      .ok { hasArgs := f2.nArgs == 2, out := f2.nOut == 1, hid := f2.hid,
            decodeOk := f2.decodeOk, ret := f2.ret } := by
    rcases hArity with h1 | h2 <;> rcases hOut with o0 | o1 <;>
      simp [newHandler, hFunc, *]
  refine ⟨by simp [eventOn, hnew], by simp [findHandler], ?_⟩
  rcases hArity with h1 | h2
  · simp [processIncoming, findHandler, h1]
  · simp [processIncoming, findHandler, h2, hdec h2]

/-- C10 witness: registering a two-parameter, returning callback (tag 2)
over a no-argument one (tag 1) under `"dup"` succeeds and dispatch
reaches only tag 2 with the event's args. -/
theorem on_replaces_handler_witness :
    eventOn [] "dup" ⟨true, 1, 0, 1, fun _ => true, fun _ => ""⟩ =
      .ok [("dup", { hasArgs := false, out := false, hid := 1,
                     decodeOk := fun _ => true, ret := fun _ => "" })] ∧
    eventOn [("dup", { hasArgs := false, out := false, hid := 1,
                       decodeOk := fun _ => true, ret := fun _ => "" })] "dup"
        ⟨true, 2, 1, 2, fun _ => true, fun _ => "\"OK\""⟩ =
      .ok [("dup", { hasArgs := true, out := true, hid := 2,
                     decodeOk := fun _ => true, ret := fun _ => "\"OK\"" }),
           ("dup", { hasArgs := false, out := false, hid := 1,
                     decodeOk := fun _ => true, ret := fun _ => "" })] ∧
    processIncoming
        [("dup", { hasArgs := true, out := true, hid := 2,
                   decodeOk := fun _ => true, ret := fun _ => "\"OK\"" }),
         ("dup", { hasArgs := false, out := false, hid := 1,
                   decodeOk := fun _ => true, ret := fun _ => "" })] (fun _ => false)
        { Typ := .typeEmit, AckID := 0, Args := "[]", EventName := "dup" } =
      [.call 2 (some "[]")] :=
  have main := on_replaces_handler []
    [("dup", { hasArgs := false, out := false, hid := 1,
               decodeOk := fun _ => true, ret := fun _ => "" })] "dup"
    ⟨true, 1, 0, 1, fun _ => true, fun _ => ""⟩
    ⟨true, 2, 1, 2, fun _ => true, fun _ => "\"OK\""⟩
    (fun _ => false) 0 "[]" rfl rfl (Or.inr rfl) (Or.inr rfl) (fun _ => rfl)
  ⟨rfl, main.1, main.2.2⟩

/-! ## C4: the upgrades list in the Open payload -/

/-- C4 counterexample: a session initiated directly over websocket (the
no-sid websocket branch of `ServeHTTP` calls the same `setupEventLoop`)
gets upgrades `["websocket"]`, not the empty list the claim requires for
non-polling initiations. -/
theorem websocket_session_upgrades_counterexample :
    (setupConnHeader .websocket [0] wsDefaultPingInterval wsDefaultPingTimeout).Upgrades =
      ["websocket"] ∧
    (setupConnHeader .websocket [0] wsDefaultPingInterval wsDefaultPingTimeout).Upgrades ≠
      ([] : List String) := by
  constructor
  · rfl
  · simp [setupConnHeader]

/-- C4 amended: the upgrades list is `["websocket"]` for every session
created without a sid — `setupEventLoop` builds the same header whether
the initiating transport is polling or websocket — and is empty exactly
in the header the upgrade path (`upgradeEventLoop`) builds. -/
theorem upgrades_list_by_code_path (k : transportKind) (digest : List Nat)
    (i t : Nat) (sid : List Char) (i' t' : Nat) :
    (setupConnHeader k digest i t).Upgrades = ["websocket"] ∧
    (upgradeConnHeader sid i' t').Upgrades = [] :=
  ⟨rfl, rfl⟩

/-! ## C6: the open sequence -/

/-- C6: on a new session over the default polling transport, the server
enqueues exactly two packets, first the Open packet `0` + JSON payload
carrying a 20-character sid, the upgrades list `["websocket"]`,
pingInterval 30000 and pingTimeout 60000 (milliseconds), then the
empty-message sentinel packet `6`. -/
theorem open_sequence_shape (digest : List Nat) (h : digest.length = 16) :
    (sendOpenSequence (pollingOpenHeader digest)).length = 2 ∧
    sendOpenSequence (pollingOpenHeader digest) =
      ["0" ++ jsonMarshalHeader (pollingOpenHeader digest), "6"] ∧
    (pollingOpenHeader digest).Sid.length = 20 ∧
    (pollingOpenHeader digest).Upgrades = ["websocket"] ∧
    (pollingOpenHeader digest).PingInterval = 30000 ∧
    (pollingOpenHeader digest).PingTimeout = 60000 := by
  refine ⟨rfl, rfl, ?_, rfl, ?_, ?_⟩
  · simp [pollingOpenHeader, setupConnHeader, generateSid, List.length_take,
      base64Encode_length, h]
  · norm_num [pollingOpenHeader, setupConnHeader, PlDefaultPingInterval,
      timeSecond, timeMillisecond]
  · norm_num [pollingOpenHeader, setupConnHeader, PlDefaultPingTimeout,
      timeSecond, timeMillisecond]

/-- C6 witness: the open sequence at a concrete 16-byte digest. -/
theorem open_sequence_shape_witness :
    digest16.length = 16 ∧
    (sendOpenSequence (pollingOpenHeader digest16)).length = 2 ∧
    sendOpenSequence (pollingOpenHeader digest16) =
      ["0" ++ jsonMarshalHeader (pollingOpenHeader digest16), "6"] ∧
    (pollingOpenHeader digest16).Sid.length = 20 ∧
    (pollingOpenHeader digest16).Upgrades = ["websocket"] ∧
    (pollingOpenHeader digest16).PingInterval = 30000 ∧
    (pollingOpenHeader digest16).PingTimeout = 60000 :=
  ⟨by decide, open_sequence_shape digest16 (by decide)⟩

/-! ## C2: broadcast fan-out -/

/-- C2 counterexample: three alive channels 0 (A), 1 (B), 2 (C) are
joined to `"roomX"`; a `BroadcastTo("roomX", "tick", [1])` issued by A
emits to channel 0 as well — `Server.BroadcastTo` has no notion of a
calling channel and excludes nobody, so A does receive the event,
contrary to the claim. -/
theorem broadcast_includes_sender_counterexample :
    (0, "tick", "[1]") ∈ BroadcastTo trioState (fun _ => true) "roomX" "tick" "[1]" := by
  decide

/-- C2 amended: a `BroadcastTo(room, event, payload)` emits the event
frame to exactly the alive members of the room — including the caller
when it is an alive member; no member is excluded. -/
theorem broadcastTo_recipients (s : ServerState) (alive : Nat → Bool)
    (room name payload : String) (members : Finset Nat)
    (h : s.channels room = some members) (cn : Nat) :
    (cn, name, payload) ∈ BroadcastTo s alive room name payload ↔
      cn ∈ members ∧ alive cn = true := by
  simp [BroadcastTo, h, Finset.mem_image, Finset.mem_filter]

/-- C2 witness: on the three-channel room, channel 1 (B) — a member other
than the caller — receives, and so does the caller 0 (A). -/
theorem broadcastTo_recipients_witness :
    trioState.channels "roomX" = some {0, 1, 2} ∧
    ((1, "tick", "[1]") ∈ BroadcastTo trioState (fun _ => true) "roomX" "tick" "[1]" ↔
      1 ∈ ({0, 1, 2} : Finset Nat) ∧ (fun _ : Nat => true) 1 = true) ∧
    ((0, "tick", "[1]") ∈ BroadcastTo trioState (fun _ => true) "roomX" "tick" "[1]" ↔
      0 ∈ ({0, 1, 2} : Finset Nat) ∧ (fun _ : Nat => true) 0 = true) :=
  ⟨by decide,
   broadcastTo_recipients trioState (fun _ => true) "roomX" "tick" "[1]" {0, 1, 2}
     (by decide) 1,
   broadcastTo_recipients trioState (fun _ => true) "roomX" "tick" "[1]" {0, 1, 2}
     (by decide) 0⟩

/-! ## C3: disconnect cleanup -/

/-- C3: after `onDisconnection` runs for channel `c`, the channel is a
member of no room, every room left empty by its removal is deleted from
the room index, the channel's own room set is purged, the channel is
absent from the sid index, and the trace performs all room removals
before the sid-index removal.  The hypotheses are the registry invariants
at entry: membership of `c` in a room is mirrored in `c`'s room set, and
only `c`'s own id maps to `c` in the sid index. -/
theorem disconnect_cleanup (s : ServerState) (c : Nat) (cid : String)
    (hInv : ∀ r set, s.channels r = some set → c ∈ set →
      ∃ rs, s.rooms c = some rs ∧ r ∈ rs)
    (hSid : ∀ k, s.sids k = some c → k = cid) :
    (∀ r set, (onDisconnection s c cid).1.channels r = some set → c ∉ set) ∧
    (∀ r set, s.channels r = some set → c ∈ set → set.erase c = ∅ →
      (onDisconnection s c cid).1.channels r = none) ∧
    (onDisconnection s c cid).1.rooms c = none ∧
    (∀ k, (onDisconnection s c cid).1.sids k ≠ some c) ∧
    (∃ roomOps, (onDisconnection s c cid).2 = roomOps ++ [.deleteSid cid] ∧
      ∀ op ∈ roomOps, ∃ r, op = CleanupOp.removeFromRoom r) := by
  rcases hrc : s.rooms c with _ | rs
  all_goals refine ⟨?_, ?_, ?_, ?_, ?_⟩
  · intro r set h hc
    simp only [onDisconnection, hrc] at h
    obtain ⟨rs', hrs', _⟩ := hInv r set h hc
    rw [hrc] at hrs'
    exact Option.noConfusion hrs'
  · intro r set h hc _
    obtain ⟨rs', hrs', _⟩ := hInv r set h hc
    rw [hrc] at hrs'
    exact absurd hrs' (by simp)
  · simp only [onDisconnection, hrc, hrc]
  · intro k
    simp only [onDisconnection, hrc]
    by_cases hk : k = cid
    · simp [hk]
    · simp only [if_neg hk]
      intro h
      exact hk (hSid k h)
  · exact ⟨[], by simp [onDisconnection, hrc], by simp⟩
  · intro r set h hc
    simp only [onDisconnection, hrc] at h
    by_cases hr : r ∈ rs
    · rw [if_pos hr] at h
      rcases hcr : s.channels r with _ | cur <;> rw [hcr] at h
      · exact Option.noConfusion h
      · by_cases he : cur.erase c = ∅
        · simp [he] at h
        · simp only [he, if_neg he] at h
          obtain rfl : cur.erase c = set := by simpa using h
          exact Finset.not_mem_erase c cur hc
    · rw [if_neg hr] at h
      obtain ⟨rs', hrs', hr'⟩ := hInv r set h hc
      rw [hrc] at hrs'
      obtain rfl : rs = rs' := by simpa using hrs'
      exact hr hr'
  · intro r set h hc he
    obtain ⟨rs', hrs', hr'⟩ := hInv r set h hc
    rw [hrc] at hrs'
    obtain rfl : rs = rs' := by simpa using hrs'
    simp [onDisconnection, hrc, if_pos hr', h, he]
  · simp [onDisconnection, hrc]
  · intro k
    simp only [onDisconnection, hrc]
    by_cases hk : k = cid
    · simp [hk]
    · simp only [if_neg hk]
      intro h
      exact hk (hSid k h)
  · refine ⟨(rs.sort (· ≤ ·)).map .removeFromRoom, by simp [onDisconnection, hrc], ?_⟩
    intro op hop
    obtain ⟨r, _, rfl⟩ := List.mem_map.mp hop
    exact ⟨r, rfl⟩

/-- C3 witness: disconnecting the single channel of `pollState` deletes
`"roomA"` (left empty), purges its room set, removes its sid, and the
trace removes the room before the sid. -/
theorem disconnect_cleanup_witness :
    (onDisconnection pollState 0 "S").1.channels "roomA" = none ∧
    (onDisconnection pollState 0 "S").1.rooms 0 = none ∧
    (onDisconnection pollState 0 "S").1.sids "S" ≠ some 0 ∧
    (onDisconnection pollState 0 "S").2 =
      [CleanupOp.removeFromRoom "roomA", CleanupOp.deleteSid "S"] := by
  have hInv : ∀ r set, pollState.channels r = some set → 0 ∈ set →
      ∃ rs, pollState.rooms 0 = some rs ∧ r ∈ rs := by
    intro r set h hc
    simp only [pollState] at h ⊢
    split at h
    · rename_i hr
      exact ⟨{"roomA"}, by simp, by simp [hr]⟩
    · exact Option.noConfusion h
  have hSid : ∀ k, pollState.sids k = some 0 → k = "S" := by
    intro k h
    simp only [pollState] at h
    by_cases hk : k = "S"
    · exact hk
    · simp [hk] at h
  have main := disconnect_cleanup pollState 0 "S" hInv hSid
  have hsort : ({"roomA"} : Finset String).sort (· ≤ ·) = ["roomA"] :=
    Finset.sort_singleton _ _
  exact ⟨main.2.1 "roomA" {0} (by decide) (by decide) (by decide),
         main.2.2.1, main.2.2.2.1 "S",
         by simp [onDisconnection, pollState, hsort]⟩

/-! ## C1: transport upgrade -/

/-- C1 counterexample: a polling channel 0 with sid `"S"` joined to
`"roomA"` is upgraded to the new websocket channel 1; afterwards
`"roomA"` still contains the old channel 0 and does not contain the new
channel 1 — `upgradeEventLoop` never touches the room registries,
contrary to the claim's room part. -/
theorem upgrade_room_counterexample :
    (upgradeEventLoop pollState "S" 1).1.channels "roomA" = some {0} ∧
    (1 : Nat) ∉ ((upgradeEventLoop pollState "S" 1).1.channels "roomA").getD ∅ ∧
    (0 : Nat) ∈ ((upgradeEventLoop pollState "S" 1).1.channels "roomA").getD ∅ := by
  decide

/-- C1 amended: when a websocket request arrives with the sid of an
existing channel, `upgradeEventLoop` re-points the sid index at the new
channel before the old channel is stubbed (trace order `connectNew` then
`stubOld`), leaves every room's membership — and so the rooms the old
channel belonged to — unchanged, and fires no `disconnection` for the
stubbed channel. -/
theorem upgrade_swaps_sid_only (s : ServerState) (sid : String) (newC oldC : Nat)
    (h : s.sids sid = some oldC) :
    (upgradeEventLoop s sid newC).1.sids sid = some newC ∧
    (∀ r, (upgradeEventLoop s sid newC).1.channels r = s.channels r) ∧
    (∀ c, (upgradeEventLoop s sid newC).1.rooms c = s.rooms c) ∧
    (upgradeEventLoop s sid newC).2 = [.connectNew newC, .stubOld oldC] ∧
    (∀ c, UpgradeStep.fireDisconnection c ∉ (upgradeEventLoop s sid newC).2) := by
  refine ⟨?_, ?_, ?_, ?_, ?_⟩ <;> simp [upgradeEventLoop, h, onConnection]

/-- C1 witness: the upgrade of `pollState`'s channel 0 (sid `"S"`) to
channel 1: the sid index points at 1 and the trace is the sid swap
followed by the stub. -/
theorem upgrade_swaps_sid_only_witness :
    pollState.sids "S" = some 0 ∧
    (upgradeEventLoop pollState "S" 1).1.sids "S" = some 1 ∧
    (upgradeEventLoop pollState "S" 1).2 = [.connectNew 1, .stubOld 0] :=
  ⟨by decide,
   (upgrade_swaps_sid_only pollState "S" 1 0 (by decide)).1,
   (upgrade_swaps_sid_only pollState "S" 1 0 (by decide)).2.2.2.1⟩

end GolangSocketio
